import Mathlib

/-!
Shallow embedding of `src/usi_i2c_slave.c`, an AVR USI-based I²C slave.

The C file keeps three static 8-bit variables (`status`, `rdir`, `ack`),
a slave address `i2c_slave.direction` and a byte array
`i2c_slave.registers` (indexed by the 8-bit `rdir`, modelled as a list of
256 bytes).  Two interrupt service routines drive the protocol:
`USI_START_vect` (start-condition detected) and `USI_OVF_vect`
(bit-counter overflow).  Hardware registers that only steer bit timing
(`USISR` counter bits, `I2CD`/`I2CP` pin direction and level) are not part
of the observable state; the inputs the ISRs read from hardware are passed
as arguments: the shift register `USIDR` contents at an overflow, the
sampled SDA level at an ACK bit, and the stop-condition flag `USIPF`.
The overflow-interrupt enable bit `USIOIE` of `USICR` is modelled as
`ovfEnabled` because the code sets and clears it to gate the overflow ISR.
-/

/-- Observable state of the I²C slave: the three static variables of the C
file, the overflow-interrupt enable bit, and the `i2c_slave` struct
(slave address and register file). -/
structure UsiState where
  status : Nat
  rdir : Nat
  ack : Bool
  regs : List Nat
  direction : Nat
  ovfEnabled : Bool
deriving DecidableEq

/-- `ISR(USI_START_vect)`: on a start condition, `status == 2` (a repeated
start right after the register-pointer byte or mid multi-byte write) goes
back to address decoding; any other start enables the overflow interrupt
(`USICR |= 1<<USIOIE`) and clears the shift register.  `rdir` and `ack`
are never touched here. -/
def USI_START_vect (s : UsiState) : UsiState :=
  if s.status = 2 then
    { s with status := 0 }
  else
    { s with ovfEnabled := true }

/-- `ISR(USI_OVF_vect)`: counter-overflow handler.  `usidr` is the byte in
the hardware shift register when the interrupt fires, `sdaLow` the sampled
SDA line level at an ACK bit (low = ACK from the master), `stop` the
`USIPF` stop-condition flag.  When the overflow interrupt is disabled the
ISR does not run.  The second component is the byte loaded into `USIDR`
for transmission (`USIDR = i2c_slave.registers[rdir]`), when any.
`rdir` is `uint8_t`, so `rdir++` wraps modulo 256; `USIDR >> 1` and
`USIDR & 0x1` on a byte are `usidr / 2` and `usidr % 2`. -/
def USI_OVF_vect (s : UsiState) (usidr : Nat) (sdaLow : Bool) (stop : Bool) :
    UsiState × Option Nat :=
  if ¬ s.ovfEnabled then (s, none)
  else if s.ack then
    let s1 :=
      if s.status = 5 then
        if sdaLow then
          { s with status := 4, rdir := (s.rdir + 1) % 256 }
        else
          { s with status := 0, rdir := 0, ovfEnabled := false }
      else s
    if s1.status = 3 then
      if stop then
        ({ s1 with rdir := 0, status := 0, ovfEnabled := false, ack := false }, none)
      else
        ({ s1 with status := 2, rdir := (s1.rdir + 1) % 256, ack := false }, none)
    else if s1.status = 4 then
      ({ s1 with ack := false }, some (s1.regs.getD s1.rdir 0))
    else
      ({ s1 with ack := false }, none)
  else
    if s.status = 0 then
      if usidr / 2 = s.direction then
        if usidr % 2 = 1 then
          ({ s with status := 4, ack := true }, none)
        else
          ({ s with status := s.status + 1, ack := true }, none)
      else (s, none)
    else if s.status = 1 then
      ({ s with rdir := usidr, ack := true, status := s.status + 1 }, none)
    else if s.status = 2 then
      ({ s with regs := s.regs.set s.rdir usidr, ack := true, status := s.status + 1 }, none)
    else if s.status = 4 then
      ({ s with ack := true, status := s.status + 1 }, none)
    else (s, none)

/-- Hardware events fed to the slave: a start condition, or a counter
overflow together with the hardware inputs the handler samples. -/
inductive Event where
  | start : Event
  | ovf (usidr : Nat) (sdaLow : Bool) (stop : Bool) : Event
deriving DecidableEq

/-- Dispatch one event to the corresponding ISR. -/
def stepEv (s : UsiState) (e : Event) : UsiState × Option Nat :=
  match e with
  | .start => (USI_START_vect s, none)
  | .ovf u sda st => USI_OVF_vect s u sda st

/-- Run a sequence of events, collecting the bytes loaded for
transmission in order. -/
def run (s : UsiState) : List Event → UsiState × List Nat
  | [] => (s, [])
  | e :: es =>
    ((run (stepEv s e).1 es).1, (stepEv s e).2.toList ++ (run (stepEv s e).1 es).2)

/-- `usi_i2c_slave(dir)`: initialisation.  Static variables start at 0 (C
zero-initialisation), the register file is zeroed `.bss` memory, `USICR`
is set with the start interrupt but without `USIOIE`, and the slave
address is stored in `i2c_slave.direction`. -/
def usi_i2c_slave (dir : Nat) : UsiState :=
  { status := 0, rdir := 0, ack := false,
    regs := List.replicate 256 0, direction := dir, ovfEnabled := false }

/-!
Typed register-file accessors.  The AVR target is little-endian and a
`*(uint16_t*)p = x` store places the low byte of `x` at `p` and the high
byte at `p+1` (similarly four bytes for `uint32_t`), so the pointer-cast
stores and loads are embedded as explicit little-endian byte stores and
loads into the register list.
-/

/-- Little-endian 16-bit store at byte index `dir` (AVR layout of
`*(uint16_t*)(registers + dir) = v`). -/
def store16le (regs : List Nat) (dir v : Nat) : List Nat :=
  (regs.set dir (v % 256)).set (dir + 1) (v / 256 % 256)

/-- Little-endian 32-bit store at byte index `dir` (AVR layout of
`*(uint32_t*)(registers + dir) = v`). -/
def store32le (regs : List Nat) (dir v : Nat) : List Nat :=
  (((regs.set dir (v % 256)).set (dir + 1) (v / 256 % 256)).set
      (dir + 2) (v / 65536 % 256)).set (dir + 3) (v / 16777216 % 256)

/-- `usi_i2c_save_registers_u8`. -/
def usi_i2c_save_registers_u8 (regs : List Nat) (data dir : Nat) : List Nat :=
  regs.set dir data

/-- `usi_i2c_save_registers_u16`: stores
`((data&0xFF)<<8)|((data&0xFF00)>>8)` through a `uint16_t` pointer. -/
def usi_i2c_save_registers_u16 (regs : List Nat) (data dir : Nat) : List Nat :=
  store16le regs dir (((data &&& 0xFF) <<< 8) ||| ((data &&& 0xFF00) >>> 8))

/-- `usi_i2c_save_registers_u32`: stores
`((data&0xFF)<<24)|((data&0xFF000000)>>24)|((data&0xFF00)<<8)|((data&0xFF0000)>>8)`
through a `uint32_t` pointer. -/
def usi_i2c_save_registers_u32 (regs : List Nat) (data dir : Nat) : List Nat :=
  store32le regs dir
    (((data &&& 0xFF) <<< 24) ||| ((data &&& 0xFF000000) >>> 24) |||
      ((data &&& 0xFF00) <<< 8) ||| ((data &&& 0xFF0000) >>> 8))

/-- `usi_i2c_read_registers_u8`. -/
def usi_i2c_read_registers_u8 (regs : List Nat) (dir : Nat) : Nat :=
  regs.getD dir 0

/-- `usi_i2c_read_registers_u16`: plain `uint16_t` pointer load, no byte
swap (little-endian AVR load). -/
def usi_i2c_read_registers_u16 (regs : List Nat) (dir : Nat) : Nat :=
  regs.getD dir 0 + 256 * regs.getD (dir + 1) 0

/-- `usi_i2c_read_registers_u32`: plain `uint32_t` pointer load, no byte
swap (little-endian AVR load). -/
def usi_i2c_read_registers_u32 (regs : List Nat) (dir : Nat) : Nat :=
  regs.getD dir 0 + 256 * regs.getD (dir + 1) 0 +
    65536 * regs.getD (dir + 2) 0 + 16777216 * regs.getD (dir + 3) 0

/-- Two's-complement 16-bit pattern of an `int16_t` value. -/
def toBits16 (data : Int) : Nat := (data % 65536).toNat

/-- Two's-complement 32-bit pattern of an `int32_t` value. -/
def toBits32 (data : Int) : Nat := (data % 4294967296).toNat

/-- `usi_i2c_save_registers_s8`: stores the two's-complement byte of
`data` through an `int8_t` pointer. -/
def usi_i2c_save_registers_s8 (regs : List Nat) (data : Int) (dir : Nat) : List Nat :=
  regs.set dir ((data % 256).toNat)

/-- `usi_i2c_save_registers_s16`: the same expression
`((data&0xFF)<<8)|((data&0xFF00)>>8)` on an `int16_t`.  On the AVR target
(16-bit `int`) the operand `data` enters the bitwise operations as its
16-bit two's-complement pattern — `0xFF00` has type `unsigned int`, so
`data & 0xFF00` converts `data` to `unsigned` (i.e. its pattern), and
`data & 0xFF` selects the pattern's low byte — and the result is stored
back through an `int16_t` pointer, laying down the pattern's bytes. -/
def usi_i2c_save_registers_s16 (regs : List Nat) (data : Int) (dir : Nat) : List Nat :=
  store16le regs dir
    (((toBits16 data &&& 0xFF) <<< 8) ||| ((toBits16 data &&& 0xFF00) >>> 8))

/-- `usi_i2c_save_registers_s32`: the 32-bit analogue of
`usi_i2c_save_registers_s16`, computed on the 32-bit two's-complement
pattern of the `int32_t` argument. -/
def usi_i2c_save_registers_s32 (regs : List Nat) (data : Int) (dir : Nat) : List Nat :=
  store32le regs dir
    (((toBits32 data &&& 0xFF) <<< 24) ||| ((toBits32 data &&& 0xFF000000) >>> 24) |||
      ((toBits32 data &&& 0xFF00) <<< 8) ||| ((toBits32 data &&& 0xFF0000) >>> 8))

/-- `usi_i2c_read_registers_s8`: `int8_t` pointer load. -/
def usi_i2c_read_registers_s8 (regs : List Nat) (dir : Nat) : Int :=
  Int.subNatNat (regs.getD dir 0 % 256) (if regs.getD dir 0 % 256 < 128 then 0 else 256)

/-- Hypothesis-free smoke test of the embedding: the example write
transaction of the documentation stores `0xAB` at register 3. -/
example :
    (run (usi_i2c_slave 0x20)
      [Event.start, Event.ovf 0x40 false false, Event.ovf 0 false false,
       Event.ovf 0x03 false false, Event.ovf 0 false false,
       Event.ovf 0xAB false false, Event.ovf 0 false true]).1.regs.getD 3 0 = 0xAB := by
  decide

/-!
Characterisations of the two handlers, one lemma per branch of the C code.
-/

lemma start_on_status2 (s : UsiState) (h : s.status = 2) :
    USI_START_vect s = { s with status := 0 } := by
  simp [USI_START_vect, h]

lemma start_on_other (s : UsiState) (h : s.status ≠ 2) :
    USI_START_vect s = { s with ovfEnabled := true } := by
  simp [USI_START_vect, h]

lemma ovf_addr_write (s : UsiState) (u : Nat) (sda st : Bool)
    (he : s.ovfEnabled = true) (ha : s.ack = false) (h0 : s.status = 0)
    (hm : u / 2 = s.direction) (hw : u % 2 = 0) :
    USI_OVF_vect s u sda st = ({ s with status := 1, ack := true }, none) := by
  simp [USI_OVF_vect, he, ha, h0, hm, hw]

lemma ovf_addr_read (s : UsiState) (u : Nat) (sda st : Bool)
    (he : s.ovfEnabled = true) (ha : s.ack = false) (h0 : s.status = 0)
    (hm : u / 2 = s.direction) (hw : u % 2 = 1) :
    USI_OVF_vect s u sda st = ({ s with status := 4, ack := true }, none) := by
  simp [USI_OVF_vect, he, ha, h0, hm, hw]

lemma ovf_pointer (s : UsiState) (u : Nat) (sda st : Bool)
    (he : s.ovfEnabled = true) (ha : s.ack = false) (h1 : s.status = 1) :
    USI_OVF_vect s u sda st
      = ({ s with rdir := u, ack := true, status := 2 }, none) := by
  simp [USI_OVF_vect, he, ha, h1]

lemma ovf_data (s : UsiState) (u : Nat) (sda st : Bool)
    (he : s.ovfEnabled = true) (ha : s.ack = false) (h2 : s.status = 2) :
    USI_OVF_vect s u sda st
      = ({ s with regs := s.regs.set s.rdir u, ack := true, status := 3 }, none) := by
  simp [USI_OVF_vect, he, ha, h2]

lemma ovf_shift_done (s : UsiState) (u : Nat) (sda st : Bool)
    (he : s.ovfEnabled = true) (ha : s.ack = false) (h4 : s.status = 4) :
    USI_OVF_vect s u sda st = ({ s with ack := true, status := 5 }, none) := by
  simp [USI_OVF_vect, he, ha, h4]

lemma ovf_ack_plain (s : UsiState) (u : Nat) (sda st : Bool)
    (he : s.ovfEnabled = true) (ha : s.ack = true)
    (h3 : s.status ≠ 3) (h4 : s.status ≠ 4) (h5 : s.status ≠ 5) :
    USI_OVF_vect s u sda st = ({ s with ack := false }, none) := by
  simp [USI_OVF_vect, he, ha, h3, h4, h5]

lemma ovf_ack_stop (s : UsiState) (u : Nat) (sda : Bool)
    (he : s.ovfEnabled = true) (ha : s.ack = true) (h3 : s.status = 3) :
    USI_OVF_vect s u sda true
      = ({ s with rdir := 0, status := 0, ovfEnabled := false, ack := false }, none) := by
  simp [USI_OVF_vect, he, ha, h3]

lemma ovf_ack_continue (s : UsiState) (u : Nat) (sda : Bool)
    (he : s.ovfEnabled = true) (ha : s.ack = true) (h3 : s.status = 3) :
    USI_OVF_vect s u sda false
      = ({ s with status := 2, rdir := (s.rdir + 1) % 256, ack := false }, none) := by
  simp [USI_OVF_vect, he, ha, h3]

lemma ovf_ack_emit (s : UsiState) (u : Nat) (sda st : Bool)
    (he : s.ovfEnabled = true) (ha : s.ack = true) (h4 : s.status = 4) :
    USI_OVF_vect s u sda st
      = ({ s with ack := false }, some (s.regs.getD s.rdir 0)) := by
  simp [USI_OVF_vect, he, ha, h4]

lemma ovf_ack_read_ack (s : UsiState) (u : Nat) (st : Bool)
    (he : s.ovfEnabled = true) (ha : s.ack = true) (h5 : s.status = 5) :
    USI_OVF_vect s u true st
      = ({ s with status := 4, rdir := (s.rdir + 1) % 256, ack := false },
         some (s.regs.getD ((s.rdir + 1) % 256) 0)) := by
  simp [USI_OVF_vect, he, ha, h5]

lemma ovf_ack_read_nack (s : UsiState) (u : Nat) (st : Bool)
    (he : s.ovfEnabled = true) (ha : s.ack = true) (h5 : s.status = 5) :
    USI_OVF_vect s u false st
      = ({ s with status := 0, rdir := 0, ovfEnabled := false, ack := false }, none) := by
  simp [USI_OVF_vect, he, ha, h5]

lemma run_nil (s : UsiState) : run s [] = (s, []) := rfl

lemma run_cons (s : UsiState) (e : Event) (es : List Event) :
    run s (e :: es)
      = ((run (stepEv s e).1 es).1, (stepEv s e).2.toList ++ (run (stepEv s e).1 es).2) := rfl

lemma run_cons_of_step (s s' : UsiState) (o : Option Nat) (e : Event) (es : List Event)
    (h : stepEv s e = (s', o)) :
    run s (e :: es) = ((run s' es).1, o.toList ++ (run s' es).2) := by
  rw [run_cons, h]

lemma run_append (l1 l2 : List Event) (s : UsiState) :
    run s (l1 ++ l2)
      = ((run (run s l1).1 l2).1, (run s l1).2 ++ (run (run s l1).1 l2).2) := by
  induction l1 generalizing s with
  | nil => simp [run]
  | cons e es ih =>
      simp [run_cons, ih, List.append_assoc]

/-- C5 counterexample: a start event arriving with `status == 3`
(POST_WRITE_ACK) does not reset the state machine to `AWAIT_ADDRESS`
(status 0); the claim that every non-`status==2` start forces a full
reset is false on the code. -/
theorem C5_start_reset_counterexample :
    ¬ ((USI_START_vect ⟨3, 7, false, [], 32, true⟩).status = 0) := by
  decide

/-- C5 (amended): a start event with `status == 2` returns to
`AWAIT_ADDRESS` (status 0) leaving the pointer and the overflow-interrupt
enable untouched; every other start event leaves `status` unchanged and
enables the overflow interrupt.  The pointer is preserved in all cases. -/
theorem C5_start_handling (s : UsiState) :
    (USI_START_vect s).status = (if s.status = 2 then 0 else s.status) ∧
    (USI_START_vect s).ovfEnabled = (if s.status = 2 then s.ovfEnabled else true) ∧
    (USI_START_vect s).rdir = s.rdir := by
  by_cases h : s.status = 2 <;> simp [USI_START_vect, h]

/-- C6: the start-condition handler never touches the register pointer
`rdir`, in any state. -/
theorem C6_start_preserves_pointer (s : UsiState) :
    (USI_START_vect s).rdir = s.rdir := by
  by_cases h : s.status = 2 <;> simp [USI_START_vect, h]

/-- C7: an address byte whose 7-bit address (`USIDR >> 1`) differs from
the slave address leaves the whole observable state unchanged in
`AWAIT_ADDRESS` and loads nothing for transmission; in particular the ACK
flag stays clear, so no ACK pulse is driven. -/
theorem C7_address_mismatch_no_change (s : UsiState) (u : Nat) (sda st : Bool)
    (he : s.ovfEnabled = true) (ha : s.ack = false) (h0 : s.status = 0)
    (hm : u / 2 ≠ s.direction) :
    USI_OVF_vect s u sda st = (s, none) := by
  simp [USI_OVF_vect, he, ha, h0, hm]

/-- Witness for `C7_address_mismatch_no_change`: address byte `0x50`
(7-bit address `0x28`) at a slave configured for `0x20`. -/
theorem C7_address_mismatch_no_change_witness :
    USI_OVF_vect ⟨0, 0, false, [], 32, true⟩ 0x50 false false
      = (⟨0, 0, false, [], 32, true⟩, none) :=
  C7_address_mismatch_no_change ⟨0, 0, false, [], 32, true⟩ 0x50 false false
    rfl rfl rfl (by decide)

/-- C8: an overflow event in ACK mode with `status == 3` and the stop flag
set resets the register pointer to 0 and the state to `AWAIT_ADDRESS`, and
detaches the overflow interrupt; the register file is untouched. -/
theorem C8_stop_resets_pointer (s : UsiState) (u : Nat) (sda : Bool)
    (he : s.ovfEnabled = true) (ha : s.ack = true) (h3 : s.status = 3) :
    USI_OVF_vect s u sda true
      = ({ s with rdir := 0, status := 0, ovfEnabled := false, ack := false }, none) :=
  ovf_ack_stop s u sda he ha h3

/-- Witness for `C8_stop_resets_pointer` at a concrete state with the
pointer at 7. -/
theorem C8_stop_resets_pointer_witness :
    USI_OVF_vect ⟨3, 7, true, [1, 2], 32, true⟩ 0 false true
      = (⟨0, 0, false, [1, 2], 32, false⟩, none) := by
  have h := C8_stop_resets_pointer ⟨3, 7, true, [1, 2], 32, true⟩ 0 false rfl rfl rfl
  simpa using h

/-- C9: the register pointer is an 8-bit variable, so both auto-increments
— after a stored byte in a multi-byte write (`status == 3`, no stop) and
after a master ACK in a multi-byte read (`status == 5`, SDA low) — are
performed modulo 256. -/
theorem C9_pointer_wraps_mod256 (s : UsiState) (u : Nat)
    (he : s.ovfEnabled = true) (ha : s.ack = true) :
    (s.status = 3 → (USI_OVF_vect s u true false).1.rdir = (s.rdir + 1) % 256) ∧
    (s.status = 5 → (USI_OVF_vect s u true false).1.rdir = (s.rdir + 1) % 256) := by
  constructor
  · intro h3
    rw [ovf_ack_continue s u true he ha h3]
  · intro h5
    rw [ovf_ack_read_ack s u false he ha h5]

/-- Witness for `C9_pointer_wraps_mod256`: incrementing the pointer from
255 in the multi-byte-write continue branch wraps to 0. -/
theorem C9_pointer_wraps_mod256_witness :
    (USI_OVF_vect ⟨3, 255, true, [], 32, true⟩ 0 true false).1.rdir = 0 := by
  have h := C9_pointer_wraps_mod256 ⟨3, 255, true, [], 32, true⟩ 0 rfl rfl
  simpa using h.1 rfl

/-- C1 (code bug): `usi_i2c_save_registers_u16` of `0x1234` at index 5
does leave the big-endian wire bytes `[0x12, 0x34]` at indices 5 and 6,
but `usi_i2c_read_registers_u16` performs no byte swap, so the immediate
read-back returns `0x3412`, not `0x1234`: the typed round-trip fails for
the 16-bit width. -/
theorem C1_roundtrip_failing_eval :
    (usi_i2c_save_registers_u16 (List.replicate 256 0) 0x1234 5).getD 5 0 = 0x12 ∧
    (usi_i2c_save_registers_u16 (List.replicate 256 0) 0x1234 5).getD 6 0 = 0x34 ∧
    usi_i2c_read_registers_u16
      (usi_i2c_save_registers_u16 (List.replicate 256 0) 0x1234 5) 5 = 0x3412 ∧
    (0x3412 : Nat) ≠ 0x1234 := by
  refine ⟨by decide, by decide, by decide, by decide⟩

/-- C10: for in-range `int16_t`/`int32_t` values, the signed save
accessors store exactly the bytes the unsigned save accessors of the same
width store for the corresponding two's-complement bit pattern. -/
theorem C10_signed_unsigned_same_bytes (regs : List Nat) (d16 d32 : Int) (dir : Nat)
    (h16lo : -32768 ≤ d16) (h16hi : d16 < 32768)
    (h32lo : -2147483648 ≤ d32) (h32hi : d32 < 2147483648) :
    usi_i2c_save_registers_s16 regs d16 dir
        = usi_i2c_save_registers_u16 regs (toBits16 d16) dir ∧
    usi_i2c_save_registers_s32 regs d32 dir
        = usi_i2c_save_registers_u32 regs (toBits32 d32) dir :=
  ⟨rfl, rfl⟩

/-- Witness for `C10_signed_unsigned_same_bytes`: `-2` as `int16_t` (bit
pattern `0xFFFE`) and `-305419897` as `int32_t` (bit pattern
`0xEDCBA987`) at index 5. -/
theorem C10_signed_unsigned_same_bytes_witness :
    usi_i2c_save_registers_s16 (List.replicate 256 0) (-2) 5
        = usi_i2c_save_registers_u16 (List.replicate 256 0) 0xFFFE 5 ∧
    usi_i2c_save_registers_s32 (List.replicate 256 0) (-305419897) 5
        = usi_i2c_save_registers_u32 (List.replicate 256 0) 0xEDCBA987 5 := by
  have h := C10_signed_unsigned_same_bytes (List.replicate 256 0) (-2) (-305419897) 5
    (by decide) (by decide) (by decide) (by decide)
  have e16 : toBits16 (-2) = 0xFFFE := by decide
  have e32 : toBits32 (-305419897) = 0xEDCBA987 := by decide
  exact ⟨by rw [h.1, e16], by rw [h.2, e32]⟩

/-- Effect of a multi-byte write on the register file: store the bytes of
`data` at consecutive indices starting at `r`, the index wrapping modulo
256 as the 8-bit pointer does. -/
def storeList (regs : List Nat) (r : Nat) : List Nat → List Nat
  | [] => regs
  | d :: ds => storeList (regs.set r d) ((r + 1) % 256) ds

lemma storeList_getD_of_ne (data : List Nat) :
    ∀ (regs : List Nat) (r idx : Nat), r < 256 →
      (∀ j, j < data.length → (r + j) % 256 ≠ idx) →
      (storeList regs r data).getD idx 0 = regs.getD idx 0 := by
  induction data with
  | nil => intro regs r idx _ _; rfl
  | cons d ds ih =>
      intro regs r idx hr h
      have hne : r ≠ idx := by
        have := h 0 (Nat.succ_pos _)
        simpa [Nat.mod_eq_of_lt hr] using this
      have hstep : ∀ j, j < ds.length → ((r + 1) % 256 + j) % 256 ≠ idx := by
        intro j hj
        have := h (j + 1) (by simpa using Nat.succ_lt_succ hj)
        simpa [Nat.mod_add_mod, Nat.add_assoc, Nat.add_comm 1 j] using this
      rw [storeList, ih (regs.set r d) ((r + 1) % 256) idx (Nat.mod_lt _ (by norm_num)) hstep]
      simp [List.getD, List.getElem?_set_ne hne]

lemma storeList_getD_at (data : List Nat) :
    ∀ (regs : List Nat) (r : Nat), r < 256 → regs.length = 256 →
      data.length ≤ 256 →
      ∀ i, i < data.length →
        (storeList regs r data).getD ((r + i) % 256) 0 = data.getD i 0 := by
  induction data with
  | nil => intro regs r _ _ _ i hi; exact absurd hi (Nat.not_lt_zero _)
  | cons d ds ih =>
      intro regs r hr hlen hle i hi
      cases i with
      | zero =>
          rw [storeList]
          have hnotin : ∀ j, j < ds.length →
              ((r + 1) % 256 + j) % 256 ≠ (r + 0) % 256 := by
            intro j hj heq
            rw [Nat.mod_add_mod, Nat.add_assoc] at heq
            have heq' : (r + (1 + j)) % 256 = r % 256 := by
              simpa [Nat.mod_eq_of_lt hr] using heq
            have hmod : r % 256 = (r + (1 + j)) % 256 := heq'.symm
            have hdvd : 256 ∣ (r + (1 + j)) - r :=
              (Nat.modEq_iff_dvd' (Nat.le_add_right _ _)).mp hmod
            rw [Nat.add_sub_cancel_left] at hdvd
            have : 256 ≤ 1 + j := Nat.le_of_dvd (by omega) hdvd
            have hjlt : 1 + j < 256 := by
              have : ds.length < 256 := Nat.lt_of_lt_of_le (Nat.lt_succ_self _) (by simpa using hle)
              omega
            omega
          rw [storeList_getD_of_ne ds (regs.set r d) ((r + 1) % 256) ((r + 0) % 256)
                (Nat.mod_lt _ (by norm_num)) hnotin]
          have : (r + 0) % 256 = r := by simpa using Nat.mod_eq_of_lt hr
          rw [this]
          have hrlen : r < regs.length := by omega
          simp [List.getD, List.getElem?_set_self, hrlen]
      | succ i' =>
          rw [storeList]
          have hidx : (r + (i' + 1)) % 256 = ((r + 1) % 256 + i') % 256 := by
            rw [Nat.mod_add_mod]
            ring_nf
          rw [hidx]
          have := ih (regs.set r d) ((r + 1) % 256) (Nat.mod_lt _ (by norm_num))
            (by simpa using hlen) (Nat.le_of_succ_le hle) i' (Nat.lt_of_succ_lt_succ hi)
          simpa using this

lemma run_ovf_cons (s s' : UsiState) (o : Option Nat) (u : Nat) (sda st : Bool)
    (es : List Event) (h : USI_OVF_vect s u sda st = (s', o)) :
    run s (Event.ovf u sda st :: es)
      = ((run s' es).1, o.toList ++ (run s' es).2) := by
  rw [run_cons]
  simp [stepEv, h]

lemma run_start_cons (s s' : UsiState) (es : List Event)
    (h : USI_START_vect s = s') :
    run s (Event.start :: es) = run s' es := by
  rw [run_cons]
  simp [stepEv, h]

/-- Event pair for one written data byte: the byte's overflow, then the
overflow at the slave-driven ACK bit (no stop condition). -/
def writeByteEvents (d : Nat) : List Event :=
  [Event.ovf d false false, Event.ovf 0 false false]

lemma writeLoop (data : List Nat) :
    ∀ (s : UsiState), s.status = 2 → s.ack = false → s.ovfEnabled = true →
      s.rdir < 256 →
      run s (data.map writeByteEvents).flatten
        = ({ s with regs := storeList s.regs s.rdir data,
                    rdir := (s.rdir + data.length) % 256 }, []) := by
  induction data with
  | nil =>
      intro s h2 ha he hr
      simp [run, storeList, Nat.mod_eq_of_lt hr]
  | cons d ds ih =>
      intro s h2 ha he hr
      have e2 : USI_OVF_vect
          { s with regs := s.regs.set s.rdir d, ack := true, status := 3 } 0 false false
          = ({ s with regs := s.regs.set s.rdir d, ack := false, status := 2,
                      rdir := (s.rdir + 1) % 256 }, none) := by
        rw [ovf_ack_continue
          { s with regs := s.regs.set s.rdir d, ack := true, status := 3 }
          0 false he rfl rfl]
      rw [List.map_cons, List.flatten_cons]
      rw [writeByteEvents, List.cons_append, List.cons_append, List.nil_append]
      rw [run_ovf_cons _ _ _ _ _ _ _ (ovf_data s d false false he ha h2)]
      rw [run_ovf_cons _ _ _ _ _ _ _ e2]
      rw [ih { s with regs := s.regs.set s.rdir d, ack := false, status := 2,
                      rdir := (s.rdir + 1) % 256 } rfl rfl he (Nat.mod_lt _ (by norm_num))]
      simp [storeList, Nat.mod_add_mod, Nat.add_assoc, Nat.add_comm 1 ds.length, h2, ha]

/-- Events of a complete write transaction up to (not including) the stop:
start condition, address byte with R/W = 0, its ACK bit, the
register-pointer byte, its ACK bit, then the data bytes each followed by
their ACK bit. -/
def writeTransaction (addr p : Nat) (data : List Nat) : List Event :=
  [Event.start, Event.ovf addr false false, Event.ovf 0 false false,
   Event.ovf p false false, Event.ovf 0 false false] ++
    (data.map writeByteEvents).flatten

/-- C4: a matching address byte with R/W = 0, a pointer byte `P`, and `k`
data bytes each ACKed leave the register file holding the data bytes at
indices `P, P+1, …` taken modulo 256, with the pointer auto-incremented to
`(P + k) % 256`; nothing is loaded for transmission. -/
theorem C4_multibyte_write (s : UsiState) (p : Nat) (data : List Nat)
    (h0 : s.status = 0) (ha : s.ack = false)
    (hlen : s.regs.length = 256) (hp : p < 256) (hk : data.length ≤ 256) :
    (run s (writeTransaction (2 * s.direction) p data)).2 = [] ∧
    (run s (writeTransaction (2 * s.direction) p data)).1.rdir
      = (p + data.length) % 256 ∧
    ∀ i, i < data.length →
      (run s (writeTransaction (2 * s.direction) p data)).1.regs.getD
          ((p + i) % 256) 0 = data.getD i 0 := by
  have hs : USI_START_vect s = { s with ovfEnabled := true } :=
    start_on_other s (by omega)
  have e1 : USI_OVF_vect { s with ovfEnabled := true } (2 * s.direction) false false
      = ({ s with ovfEnabled := true, status := 1, ack := true }, none) := by
    rw [ovf_addr_write { s with ovfEnabled := true } (2 * s.direction)
      false false rfl ha h0 (by simp [Nat.mul_div_cancel_left _ (by norm_num : 0 < 2)])
      (by simp [Nat.mul_mod_right])]
  have e2 : USI_OVF_vect { s with ovfEnabled := true, status := 1, ack := true }
        0 false false
      = ({ s with ovfEnabled := true, status := 1, ack := false }, none) := by
    rw [ovf_ack_plain { s with ovfEnabled := true, status := 1, ack := true }
      0 false false rfl rfl (by simp) (by simp) (by simp)]
  have e3 : USI_OVF_vect { s with ovfEnabled := true, status := 1, ack := false }
        p false false
      = ({ s with ovfEnabled := true, status := 2, ack := true, rdir := p }, none) := by
    rw [ovf_pointer { s with ovfEnabled := true, status := 1, ack := false }
      p false false rfl rfl rfl]
  have e4 : USI_OVF_vect { s with ovfEnabled := true, status := 2, ack := true, rdir := p }
        0 false false
      = ({ s with ovfEnabled := true, status := 2, ack := false, rdir := p }, none) := by
    rw [ovf_ack_plain { s with ovfEnabled := true, status := 2, ack := true, rdir := p }
      0 false false rfl rfl (by simp) (by simp) (by simp)]
  have hrun : run s (writeTransaction (2 * s.direction) p data)
      = ({ s with ovfEnabled := true, rdir := (p + data.length) % 256,
                  ack := false, status := 2,
                  regs := storeList s.regs p data }, []) := by
    rw [writeTransaction, List.cons_append, List.cons_append, List.cons_append,
      List.cons_append, List.cons_append, List.nil_append]
    rw [run_start_cons _ _ _ hs]
    rw [run_ovf_cons _ _ _ _ _ _ _ e1]
    rw [run_ovf_cons _ _ _ _ _ _ _ e2]
    rw [run_ovf_cons _ _ _ _ _ _ _ e3]
    rw [run_ovf_cons _ _ _ _ _ _ _ e4]
    rw [writeLoop data
      { s with ovfEnabled := true, status := 2, ack := false, rdir := p }
      rfl rfl rfl hp]
    rfl
  refine ⟨by rw [hrun], by rw [hrun], ?_⟩
  intro i hi
  rw [hrun]
  exact storeList_getD_at data s.regs p hp hlen hk i hi

set_option maxRecDepth 4000 in
/-- Witness for `C4_multibyte_write`: slave address `0x20` (address byte
`0x40`), pointer 3, data bytes `[0xAB, 0xCD]`. -/
theorem C4_multibyte_write_witness :
    (run (usi_i2c_slave 0x20) (writeTransaction 0x40 3 [0xAB, 0xCD])).2 = [] ∧
    (run (usi_i2c_slave 0x20) (writeTransaction 0x40 3 [0xAB, 0xCD])).1.rdir = 5 ∧
    (run (usi_i2c_slave 0x20) (writeTransaction 0x40 3 [0xAB, 0xCD])).1.regs.getD 3 0
      = 0xAB ∧
    (run (usi_i2c_slave 0x20) (writeTransaction 0x40 3 [0xAB, 0xCD])).1.regs.getD 4 0
      = 0xCD := by
  have h := C4_multibyte_write (usi_i2c_slave 0x20) 3 [0xAB, 0xCD]
    rfl rfl (by simp [usi_i2c_slave]) (by decide) (by decide)
  have h64 : (2 * (usi_i2c_slave 0x20).direction) = 0x40 := by decide
  rw [h64] at h
  refine ⟨h.1, by simpa using h.2.1, ?_, ?_⟩
  · have := h.2.2 0 (by decide)
    simpa using this
  · have := h.2.2 1 (by decide)
    simpa using this

/-- Events for one continued byte of a read: the overflow after the eight
shifted-out bits, then the overflow at the ACK bit with SDA sampled low
(master ACK). -/
def readAckedByteEvents : List Event :=
  [Event.ovf 0 false false, Event.ovf 0 true false]

/-- Events of a read after the address byte's ACK bit has been armed: the
overflow at the address ACK (which loads the first byte), `a` continued
bytes each ACKed by the master, then the shift-out of the last byte and
the overflow at its NACK (SDA sampled high).  In total `a + 1` bytes are
transmitted. -/
def readBody (a : Nat) : List Event :=
  Event.ovf 0 false false ::
    ((List.replicate a readAckedByteEvents).flatten ++
      [Event.ovf 0 false false, Event.ovf 0 false false])

lemma readAckLoop (m : Nat) :
    ∀ (s : UsiState), s.status = 4 → s.ack = false → s.ovfEnabled = true →
      run s ((List.replicate m readAckedByteEvents).flatten ++
          [Event.ovf 0 false false, Event.ovf 0 false false])
        = ({ s with status := 0, rdir := 0, ack := false, ovfEnabled := false },
           (List.range m).map (fun i => s.regs.getD ((s.rdir + 1 + i) % 256) 0)) := by
  induction m with
  | zero =>
      intro s h4 ha he
      have e1 : USI_OVF_vect s 0 false false
          = ({ s with ack := true, status := 5 }, none) :=
        ovf_shift_done s 0 false false he ha h4
      have e2 : USI_OVF_vect { s with ack := true, status := 5 } 0 false false
          = ({ s with status := 0, rdir := 0, ovfEnabled := false, ack := false }, none) := by
        rw [ovf_ack_read_nack { s with ack := true, status := 5 } 0 false he rfl rfl]
      rw [List.replicate, List.flatten_nil, List.nil_append]
      rw [run_ovf_cons _ _ _ _ _ _ _ e1]
      rw [run_ovf_cons _ _ _ _ _ _ _ e2]
      simp [run]
  | succ m ih =>
      intro s h4 ha he
      have e1 : USI_OVF_vect s 0 false false
          = ({ s with ack := true, status := 5 }, none) :=
        ovf_shift_done s 0 false false he ha h4
      have e2 : USI_OVF_vect { s with ack := true, status := 5 } 0 true false
          = ({ s with status := 4, rdir := (s.rdir + 1) % 256, ack := false },
             some (s.regs.getD ((s.rdir + 1) % 256) 0)) := by
        rw [ovf_ack_read_ack { s with ack := true, status := 5 } 0 false he rfl rfl]
      rw [List.replicate_succ, List.flatten_cons, List.append_assoc]
      rw [readAckedByteEvents, List.cons_append, List.cons_append, List.nil_append]
      rw [run_ovf_cons _ _ _ _ _ _ _ e1]
      rw [run_ovf_cons _ _ _ _ _ _ _ e2]
      rw [show ([Event.ovf 0 false false, Event.ovf 0 true false] : List Event)
        = readAckedByteEvents from rfl]
      rw [ih { s with status := 4, rdir := (s.rdir + 1) % 256, ack := false }
        rfl rfl he]
      refine Prod.ext rfl ?_
      simp only [Option.toList_some, Option.toList_none, List.nil_append,
        List.singleton_append, List.range_succ_eq_map, List.map_cons, List.map_map,
        Nat.add_zero]
      congr 1
      refine List.map_congr_left ?_
      intro i _
      have hmod : (((s.rdir + 1) % 256) + 1 + i) % 256 = (s.rdir + 1 + (i + 1)) % 256 := by
        omega
      simp [Function.comp_apply, hmod]

set_option maxRecDepth 4000 in
/-- C3 counterexample: a one-byte read that started at pointer 3 ends with
the register pointer at 0, not at `P + n - 1 = 3`: the NACK branch resets
`rdir` to 0. -/
theorem C3_nack_pointer_counterexample :
    (run ⟨4, 3, true, List.replicate 256 0, 32, true⟩ (readBody 0)).1.rdir = 0 ∧
    (run ⟨4, 3, true, List.replicate 256 0, 32, true⟩ (readBody 0)).1.rdir ≠ 3 := by
  refine ⟨by decide, by decide⟩

/-- C3 (amended): a master NACK on the `n`-th byte of a read terminates
the transaction exactly after `n` bytes (here `n = a + 1` with `a` master
ACKs), but the register pointer after termination is reset to 0 — not left
at `P + n - 1` — and the state machine returns to `AWAIT_ADDRESS` with the
overflow interrupt detached. -/
theorem C3_nack_terminates (s : UsiState) (a : Nat)
    (h4 : s.status = 4) (ha : s.ack = true) (he : s.ovfEnabled = true) :
    (run s (readBody a)).2.length = a + 1 ∧
    (run s (readBody a)).1.rdir = 0 ∧
    (run s (readBody a)).1.status = 0 ∧
    (run s (readBody a)).1.ovfEnabled = false := by
  have e1 : USI_OVF_vect s 0 false false
      = ({ s with ack := false }, some (s.regs.getD s.rdir 0)) :=
    ovf_ack_emit s 0 false false he ha h4
  have hrun : run s (readBody a)
      = ({ s with status := 0, rdir := 0, ack := false, ovfEnabled := false },
         s.regs.getD s.rdir 0 ::
           (List.range a).map (fun i => s.regs.getD ((s.rdir + 1 + i) % 256) 0)) := by
    rw [readBody]
    rw [run_ovf_cons _ _ _ _ _ _ _ e1]
    rw [readAckLoop a { s with ack := false } h4 rfl he]
    rfl
  rw [hrun]
  simp

set_option maxRecDepth 4000 in
/-- Witness for `C3_nack_terminates`: a read of two bytes (one master
ACK, then NACK) from pointer 3. -/
theorem C3_nack_terminates_witness :
    (run ⟨4, 3, true, List.replicate 256 0, 32, true⟩ (readBody 1)).2.length = 2 ∧
    (run ⟨4, 3, true, List.replicate 256 0, 32, true⟩ (readBody 1)).1.rdir = 0 := by
  have h := C3_nack_terminates ⟨4, 3, true, List.replicate 256 0, 32, true⟩ 1
    rfl rfl rfl
  exact ⟨h.1, h.2.1⟩

/-- Events of the spec's example scenario: write transaction (address
byte `0x40`, pointer byte `0x03`, data byte `0xAB`), with the stop
condition flagged at the data byte's ACK overflow, then a new start, the
read address byte `0x41`, and a one-byte read terminated by NACK. -/
def c2SpecScenario : List Event :=
  [Event.start, Event.ovf 0x40 false false, Event.ovf 0 false false,
   Event.ovf 0x03 false false, Event.ovf 0 false false,
   Event.ovf 0xAB false false, Event.ovf 0 false true,
   Event.start, Event.ovf 0x41 false false, Event.ovf 0 false false,
   Event.ovf 0 false false, Event.ovf 0 false false]

set_option maxRecDepth 4000 in
/-- C2 counterexample: in the spec's example scenario (slave address
`0x20`; write `0x40 0x03 0xAB`, STOP; then `0x41` and a one-byte read)
`RegisterFile[3]` does hold `0xAB` after the write, but the byte returned
by the read is `0x00` — not `0xAB` — because the stop handling resets the
pointer to 0; and the pointer does not end at 3. -/
theorem C2_read_after_write_counterexample :
    (run (usi_i2c_slave 0x20) c2SpecScenario).1.regs.getD 3 0 = 0xAB ∧
    (run (usi_i2c_slave 0x20) c2SpecScenario).2 = [0x00] ∧
    (run (usi_i2c_slave 0x20) c2SpecScenario).2 ≠ [0xAB] ∧
    (run (usi_i2c_slave 0x20) c2SpecScenario).1.rdir ≠ 3 := by
  refine ⟨by decide, by decide, by decide, by decide⟩

/-- C2 (amended): the register pointer survives only a repeated start out
of the post-pointer/post-data-ACK window (`status == 2`); from there a
read transaction (repeated start, then address byte with R/W = 1) emits
`RegisterFile[P], RegisterFile[P+1], …`, one byte per master ACK, where
`P` is the current pointer.  After a STOP-terminated write the pointer is
0, so the spec's scenario as written returns `RegisterFile[0]`. -/
theorem C2_read_after_repeated_start (s : UsiState) (a : Nat)
    (h2 : s.status = 2) (ha : s.ack = false) (he : s.ovfEnabled = true)
    (hp : s.rdir < 256) :
    (run s (Event.start :: Event.ovf (2 * s.direction + 1) false false :: readBody a)).2
      = (List.range (a + 1)).map (fun i => s.regs.getD ((s.rdir + i) % 256) 0) := by
  have hs : USI_START_vect s = { s with status := 0 } := start_on_status2 s h2
  have e1 : USI_OVF_vect { s with status := 0 } (2 * s.direction + 1) false false
      = ({ s with status := 4, ack := true }, none) := by
    rw [ovf_addr_read { s with status := 0 } (2 * s.direction + 1) false false
      he ha rfl (by show (2 * s.direction + 1) / 2 = s.direction; omega)
      (by show (2 * s.direction + 1) % 2 = 1; omega)]
  have e2 : USI_OVF_vect { s with status := 4, ack := true } 0 false false
      = ({ s with status := 4, ack := false }, some (s.regs.getD s.rdir 0)) := by
    rw [ovf_ack_emit { s with status := 4, ack := true } 0 false false he rfl rfl]
  rw [run_start_cons _ _ _ hs]
  rw [run_ovf_cons _ _ _ _ _ _ _ e1]
  rw [readBody]
  rw [run_ovf_cons _ _ _ _ _ _ _ e2]
  rw [readAckLoop a { s with status := 4, ack := false } rfl rfl he]
  simp only [Option.toList_none, Option.toList_some, List.nil_append,
    List.singleton_append, List.range_succ_eq_map, List.map_cons, List.map_map,
    Nat.add_zero]
  congr 1
  · rw [Nat.mod_eq_of_lt hp]
  · refine List.map_congr_left ?_
    intro i _
    have hmod : (s.rdir + 1 + i) % 256 = (s.rdir + (i + 1)) % 256 := by omega
    simp [Function.comp_apply, hmod]

set_option maxRecDepth 4000 in
/-- Witness for `C2_read_after_repeated_start`: pointer 3 set by a
pointer-byte write, `RegisterFile[3] = 0xAB`, repeated start, read address
`0x41`, one byte read: the byte emitted is `0xAB`. -/
theorem C2_read_after_repeated_start_witness :
    (run ⟨2, 3, false, (List.replicate 256 0).set 3 0xAB, 0x20, true⟩
        (Event.start :: Event.ovf 0x41 false false :: readBody 0)).2 = [0xAB] := by
  have h := C2_read_after_repeated_start
    ⟨2, 3, false, (List.replicate 256 0).set 3 0xAB, 0x20, true⟩ 0
    rfl rfl rfl (by norm_num)
  have ha : (2 * (⟨2, 3, false, (List.replicate 256 0).set 3 0xAB, 0x20, true⟩
      : UsiState).direction + 1) = 0x41 := rfl
  rw [ha] at h
  rw [h]
  decide
